import Mathlib

/-!
Verification development for the browser-side HTTP client layer
(`src/frontend/lib/api-client.ts` and the auth module `src/unnamed/part_000`).

The embedding is shallow: the mutable browser state (the single
`localStorage` slot holding the bearer token) is threaded explicitly as a
`World` value that also counts the observable effects (storage writes and
removals, network calls, redirects).  The outcome of a `fetch` call is a
parameter of each operation: either the promise rejected (`thrown`) or a
response arrived with a given status and parsed JSON bodies.  JavaScript
truthiness on the option-valued fields that the source tests with `&&` and
`||` is modelled explicitly (`jsOr`, `jsOrStr`, a nonzero test for numbers).
-/

/-- Browser-side mutable state: the `auth_token` slot of `localStorage`
together with counters for the observable effects.  `removeCount` counts
`localStorage.removeItem` calls, `setCount` counts `setItem` calls,
`fetchCount` counts issued network calls, `redirectCount` counts navigations
performed by this layer (the source performs none). -/
structure World where
  token : Option String
  removeCount : Nat
  setCount : Nat
  fetchCount : Nat
  redirectCount : Nat
deriving Repr, DecidableEq

/-- `getAuthToken` (auth module, lines 6-11): read the stored token. -/
def getAuthToken (w : World) : Option String :=
  w.token

/-- `setAuthToken` (auth module, lines 14-18): store a token string. -/
def setAuthToken (t : String) (w : World) : World :=
  { w with token := some t, setCount := w.setCount + 1 }

/-- `removeAuthToken` (auth module, lines 21-25) and
`localStorage.removeItem(this.config.tokenKey)` in the api client. -/
def removeAuthToken (w : World) : World :=
  { w with token := none, removeCount := w.removeCount + 1 }

/-- JavaScript `a || b` on two possibly-undefined strings: the empty string
is falsy, so it is skipped just like `undefined`. -/
def jsOr (a b : Option String) : Option String :=
  match a with
  | some s => if s = "" then b else some s
  | none => b

/-- JavaScript `a || d` where `d` is a (truthy) string default. -/
def jsOrStr (a : Option String) (d : String) : String :=
  match a with
  | some s => if s = "" then d else s
  | none => d

/-- JavaScript string coercion of a possibly-undefined string value, as
performed by `localStorage.setItem` on a non-string argument. -/
def jsStr (v : Option String) : String :=
  match v with
  | some s => s
  | none => "undefined"

/-- The `ApiError` class (`api-client.ts`, lines 11-31).  The wall-clock
`timestamp` field is omitted: it never influences control flow. -/
structure ApiError where
  message : String
  status : Nat
  errorCode : Option String
  canRetry : Bool
deriving Repr, DecidableEq

/-- Headers are modelled as an association list in insertion order, the way
a JavaScript object literal with spreads is built. -/
abbrev Headers := List (String × String)

/-- The value a JavaScript object built from this association list gives to
key `k`: the LAST binding of `k` wins, matching object-spread semantics
where later spreads override earlier keys. -/
def hget (hs : Headers) (k : String) : Option String :=
  (hs.reverse.find? (fun p => p.1 == k)).map Prod.snd

/-- Header composition of `ApiClient.request` (`api-client.ts`, lines 59-63):
the defaults are written first and `options.headers` is spread after them. -/
def composeHeaders (token : String) (callerHeaders : Headers) : Headers :=
  [("Content-Type", "application/json"),
   ("Authorization", "Bearer " ++ token)] ++ callerHeaders

/-- A value caught by the `catch` clause of `ApiClient.request`: either one
of the client's own `ApiError`s rethrown from inside the `try`, or a
platform error, observed through the two tests the source applies to it
(`instanceof TypeError` and `.name`). -/
structure CaughtError where
  asApiError : Option ApiError
  isTypeError : Bool
  name : String
deriving Repr, DecidableEq

/-- The `ApiError` built at `api-client.ts` line 144. -/
def timeoutApiError : ApiError :=
  { message := "Request timeout", status := 0, errorCode := none, canRetry := true }

/-- The `ApiError` built at `api-client.ts` line 148. -/
def networkApiError : ApiError :=
  { message := "Network error. Check your connection.", status := 0,
    errorCode := none, canRetry := true }

/-- The `catch` clause of `ApiClient.request` (`api-client.ts`, lines
134-149): rethrow an `ApiError` unchanged; an error that is a `TypeError`
named `AbortError` becomes the timeout error; everything else becomes the
generic network error. -/
def classifyCaughtError (e : CaughtError) : ApiError :=
  match e.asApiError with
  | some a => a
  | none =>
      if e.isTypeError && e.name == "AbortError" then timeoutApiError
      else networkApiError

/-- Modelled from the web platform (WHATWG DOM and Fetch standards), which
the source delegates to: when an `AbortController` armed by the built-in
cancellation timer aborts a `fetch`, the promise rejects with a
`DOMException` whose `name` is `"AbortError"`.  A `DOMException` is not a
`TypeError`, so `instanceof TypeError` is `false` for it. -/
def timerAbortError : CaughtError :=
  { asApiError := none, isTypeError := false, name := "AbortError" }

/-- The JSON error body parsed at `api-client.ts` line 95, observed through
the three fields the source reads.  A field is `none` when absent. -/
structure ErrData where
  error_code : Option String
  errorCode : Option String
  message : Option String
deriving Repr, DecidableEq

/-- The empty object `{}` substituted when parsing the error body fails. -/
def emptyErrData : ErrData :=
  { error_code := none, errorCode := none, message := none }

/-- `errorData.error_code || errorData.errorCode || null`
(`api-client.ts`, line 96). -/
def extractErrorCode (ed : ErrData) : Option String :=
  jsOr ed.error_code (jsOr ed.errorCode none)

/-- The status-code message table of `ApiClient.request`
(`api-client.ts`, lines 98-117). -/
def httpErrorMessage (status : Nat) (ed : ErrData) : String :=
  if status = 400 then "Invalid request"
  else if status = 403 then "You don\x27t have access to this resource"
  else if status = 404 then "The requested item was not found"
  else if status = 422 then "Please check your input"
  else if status = 500 then "Something went wrong. Please try again."
  else jsOrStr ed.message "Request failed"

/-- The `ApiError` thrown for a non-ok, non-401 response
(`api-client.ts`, lines 119-125). -/
def httpApiError (status : Nat) (ed : ErrData) : ApiError :=
  { message := httpErrorMessage status ed
    status := status
    errorCode := extractErrorCode ed
    canRetry := decide (500 ≤ status) || decide (status = 0) }

/-- The `ApiError` thrown when no token is stored (`api-client.ts`, line 53). -/
def noTokenApiError : ApiError :=
  { message := "No authentication token found", status := 401,
    errorCode := some "AUTH_001", canRetry := false }

/-- The `ApiError` thrown on an HTTP 401 response (`api-client.ts`, line 91). -/
def unauthorizedApiError : ApiError :=
  { message := "Unauthorized access", status := 401,
    errorCode := some "AUTH_001", canRetry := false }

/-- Outcome of the `fetch` call inside `ApiClient.request`: the promise
rejected with some error, or a response arrived.  `errData` is the result
of parsing the body as an error object (`none` when `response.json()`
rejected, which the source replaces with `{}`); `body` is the result of
parsing the body as the success payload `T` (`none` when that parse
rejected). -/
inductive FetchOutcome (T : Type) where
  | thrown (e : CaughtError)
  | resp (status : Nat) (errData : Option ErrData) (body : Option T)
deriving Repr, DecidableEq

namespace ApiClient

/-- `ApiClient.request` (`api-client.ts`, lines 46-150), as a function of
the browser state and the fetch outcome.  Returns the new state and either
the thrown `ApiError` or the parsed result (`none` models the `undefined`
returned for a 204 response).  `response.ok` is `200 ≤ status < 300` per
the Fetch standard.  A rejection of `response.json()` on the success path
is a `SyntaxError`, which the `catch` clause maps to the generic network
error (it is neither an `ApiError` nor a `TypeError` named `AbortError`). -/
def request (T : Type) (w : World) (outcome : FetchOutcome T) :
    World × Except ApiError (Option T) :=
  match getAuthToken w with
  | none => (w, .error noTokenApiError)
  | some _ =>
      let w1 := { w with fetchCount := w.fetchCount + 1 }
      match outcome with
      | .thrown e => (w1, .error (classifyCaughtError e))
      | .resp status errData body =>
          if status = 401 then
            (removeAuthToken w1, .error unauthorizedApiError)
          else if ¬ (200 ≤ status ∧ status < 300) then
            (w1, .error (httpApiError status (errData.getD emptyErrData)))
          else if status = 204 then
            (w1, .ok none)
          else
            match body with
            | some b => (w1, .ok (some b))
            | none => (w1, .error networkApiError)

/-- The headers `ApiClient.request` hands to `fetch`, when a token is
stored (with no token the function throws before composing headers). -/
def sentHeaders (w : World) (callerHeaders : Headers) : Option Headers :=
  (getAuthToken w).map (fun token => composeHeaders token callerHeaders)

/-- The public `RequestOptions` interface (`api-client.ts`, lines 34-37). -/
structure RequestOptions where
  headers : Option Headers
  timeout : Option Nat
deriving Repr, DecidableEq

/-- The `RequestInit`-shaped argument the public verb methods build for
`request` (`api-client.ts`, lines 152-188), observed through the fields
`request` reads.  None of the verbs ever sets `signal`. -/
structure BuiltInit where
  method : String
  headers : Option Headers
  body : Option String
  hasSignal : Bool
deriving Repr, DecidableEq

/-- `ApiClientConfig` (`api-client.ts`, lines 4-8). -/
structure Config where
  baseUrl : String
  tokenKey : String
  timeout : Nat
deriving Repr, DecidableEq

/-- The default client instance configuration (`api-client.ts`, lines
192-196), with the environment fallback base URL. -/
def defaultConfig : Config :=
  { baseUrl := "http://localhost:8000", tokenKey := "auth_token", timeout := 10000 }

/-- Line 56 of `api-client.ts` together with lines 66-72: the timeout that
gets armed is the configured one exactly when the caller supplied no
signal; otherwise no timer is armed. -/
def armedTimeout (cfg : Config) (hasSignal : Bool) : Option Nat :=
  if hasSignal then none else some cfg.timeout

/-- `ApiClient.get` (`api-client.ts`, lines 152-157). -/
def get (endpoint : String) (options : Option RequestOptions) : String × BuiltInit :=
  (endpoint,
   { method := "GET", headers := options.bind RequestOptions.headers,
     body := none, hasSignal := false })

/-- `ApiClient.post` (`api-client.ts`, lines 159-165); `data` stands for
the `JSON.stringify`d body. -/
def post (endpoint : String) (data : String) (options : Option RequestOptions) :
    String × BuiltInit :=
  (endpoint,
   { method := "POST", headers := options.bind RequestOptions.headers,
     body := some data, hasSignal := false })

/-- `ApiClient.put` (`api-client.ts`, lines 167-173). -/
def put (endpoint : String) (data : String) (options : Option RequestOptions) :
    String × BuiltInit :=
  (endpoint,
   { method := "PUT", headers := options.bind RequestOptions.headers,
     body := some data, hasSignal := false })

/-- `ApiClient.patch` (`api-client.ts`, lines 175-181). -/
def patch (endpoint : String) (data : String) (options : Option RequestOptions) :
    String × BuiltInit :=
  (endpoint,
   { method := "PATCH", headers := options.bind RequestOptions.headers,
     body := some data, hasSignal := false })

/-- `ApiClient.delete` (`api-client.ts`, lines 183-188). -/
def del (endpoint : String) (options : Option RequestOptions) : String × BuiltInit :=
  (endpoint,
   { method := "DELETE", headers := options.bind RequestOptions.headers,
     body := none, hasSignal := false })

end ApiClient

/-- JavaScript `s.split(".")` with a one-character literal separator:
split at every `'.'`; `"".split(".")` is `[""]`. -/
def splitDotAux : List Char → List Char → List (List Char)
  | [], acc => [acc.reverse]
  | c :: cs, acc =>
      if c = '.' then acc.reverse :: splitDotAux cs []
      else splitDotAux cs (c :: acc)

/-- The token split `token.split(".")` of `checkAuthState`
(auth module, line 138). -/
def jsSplitDot (s : String) : List String :=
  (splitDotAux s.data []).map List.asString

/-- The JWT payload object obtained from `JSON.parse(atob(tokenParts[1]))`,
observed through the three fields `checkAuthState` reads.  `exp` is the
numeric expiry claim (`none` when absent). -/
structure JwtPayload where
  sub : Option String
  email : Option String
  exp : Option Int
deriving Repr, DecidableEq

/-- The `User` value `checkAuthState` builds (auth module, lines 144-147):
`userId` is `payload.sub` unchanged (possibly undefined),
`email` is `payload.email || ""`. -/
structure AuthUser where
  userId : Option String
  email : String
deriving Repr, DecidableEq

/-- The session state `{isAuthenticated, user}` returned by `checkAuthState`. -/
structure Session where
  isAuthenticated : Bool
  user : Option AuthUser
deriving Repr, DecidableEq

/-- The unauthenticated state `{isAuthenticated: false, user: null}`. -/
def unauthenticated : Session :=
  { isAuthenticated := false, user := none }

/-- `checkAuthState` (auth module, lines 123-162) in a browser context.
`decodePayload` stands for the platform composition
`JSON.parse(atob(-))`, returning `none` when either call throws; that
throw is the only one the surrounding `try` can see, and the `catch`
clause removes the token and returns unauthenticated.  `now` is
`Math.floor(Date.now() / 1000)`.  The expiry test is the source's
`payload.exp && payload.exp < currentTime`: a claim equal to `0` is falsy
and skips the expiry branch. -/
def checkAuthState (decodePayload : String → Option JwtPayload) (now : Int)
    (w : World) : World × Session :=
  match getAuthToken w with
  | none => (w, unauthenticated)
  | some token =>
      let tokenParts := jsSplitDot token
      if tokenParts.length ≠ 3 then
        (w, unauthenticated)
      else
        match decodePayload (tokenParts.getD 1 "") with
        | none => (removeAuthToken w, unauthenticated)
        | some payload =>
            let user : AuthUser :=
              { userId := payload.sub, email := jsOrStr payload.email "" }
            match payload.exp with
            | some e =>
                if e ≠ 0 ∧ e < now then (removeAuthToken w, unauthenticated)
                else (w, { isAuthenticated := true, user := some user })
            | none => (w, { isAuthenticated := true, user := some user })

/-- The refresh response body, observed through the one field read
(`data.access_token`, `none` when absent). -/
structure RefreshBody where
  access_token : Option String
deriving Repr, DecidableEq

/-- Outcome of the `fetch` inside `refreshToken`: the promise rejected, or
a response with `ok` status arrived whose JSON body parsed to `body`
(`none` when `response.json()` rejected). -/
inductive RefreshOutcome where
  | thrown
  | resp (ok : Bool) (body : Option RefreshBody)
deriving Repr, DecidableEq

/-- The body of the `try` block of `refreshToken` (auth module, lines
198-216): `.error ()` marks a throw escaping to the `catch` clause. -/
def refreshTokenTry (w : World) (net : RefreshOutcome) :
    World × Except Unit (Option String) :=
  match net with
  | .thrown => (w, .error ())
  | .resp ok body =>
      if !ok then (removeAuthToken w, .ok none)
      else
        match body with
        | none => (w, .error ())
        | some b => (setAuthToken (jsStr b.access_token) w, .ok b.access_token)

/-- `refreshToken` (auth module, lines 192-222): no token short-circuits to
`null` before any network call; otherwise run the `try` body, and the
`catch` clause removes the token and returns `null`. -/
def refreshToken (w : World) (net : RefreshOutcome) : World × Option String :=
  match getAuthToken w with
  | none => (w, none)
  | some _ =>
      let w1 := { w with fetchCount := w.fetchCount + 1 }
      match refreshTokenTry w1 net with
      | (w2, .ok r) => (w2, r)
      | (w2, .error ()) => (removeAuthToken w2, none)

/-- The sign-in response body `{access_token, user}`, observed through the
two destructured fields; the user payload `U` is opaque pass-through. -/
structure SignInBody (U : Type) where
  access_token : Option String
  user : U
deriving Repr, DecidableEq

/-- Outcome of the `fetch` inside `signIn`: the promise rejected, or a
response arrived; `detail` is `errorData.detail` of the parsed error body
(`none` both when absent and when that parse was replaced by `{}`), and
`body` is the parsed success body (`none` when `response.json()` rejected
on the ok path). -/
inductive AuthFetchOutcome (U : Type) where
  | thrown
  | resp (ok : Bool) (detail : Option String) (body : Option (SignInBody U))
deriving Repr, DecidableEq

/-- How a `signIn` call fails: the `fetch` rejection rethrown, the success
body JSON parse rethrown, or the locally built `Error` with its message. -/
inductive SignInFailure where
  | fetchThrown
  | jsonThrown
  | errMsg (msg : String)
deriving Repr, DecidableEq

/-- The `{user, token}` result of a successful `signIn`. -/
structure SignInResult (U : Type) where
  user : U
  token : Option String
deriving Repr, DecidableEq

/-- `signIn` (auth module, lines 54-83).  The `catch` clause only logs and
rethrows, so every failure passes through unchanged.  On a non-ok
response the thrown message is `errorData.detail || "Sign in failed"`;
on success the token is persisted and `{user, token: access_token}`
returned. -/
def signIn (U : Type) (w : World) (net : AuthFetchOutcome U) :
    World × Except SignInFailure (SignInResult U) :=
  let w1 := { w with fetchCount := w.fetchCount + 1 }
  match net with
  | .thrown => (w1, .error .fetchThrown)
  | .resp ok detail body =>
      if !ok then (w1, .error (.errMsg (jsOrStr detail "Sign in failed")))
      else
        match body with
        | none => (w1, .error .jsonThrown)
        | some b =>
            (setAuthToken (jsStr b.access_token) w1,
             .ok { user := b.user, token := b.access_token })

/-- `TaskQueryParams` as consumed by `taskApi.getTasks`
(`api-client.ts`, lines 203-211). -/
structure TaskQueryParams where
  is_completed : Option Bool
  limit : Option Int
  offset : Option Int
deriving Repr, DecidableEq

/-- JavaScript `String(b)` on a boolean. -/
def jsBoolString (b : Bool) : String :=
  if b then "true" else "false"

/-- JavaScript `String(n)` on an integer-valued number. -/
def jsIntString (n : Int) : String :=
  toString n

/-- The `URLSearchParams` appends of `taskApi.getTasks`
(`api-client.ts`, lines 201-211): one pair per non-undefined parameter, in
the order is_completed, limit, offset. -/
def taskQueryPairs (p : TaskQueryParams) : List (String × String) :=
  (match p.is_completed with
   | some b => [("is_completed", jsBoolString b)]
   | none => []) ++
  (match p.limit with
   | some n => [("limit", jsIntString n)]
   | none => []) ++
  (match p.offset with
   | some n => [("offset", jsIntString n)]
   | none => [])

/-- `URLSearchParams.toString()` for these pairs: `k=v` joined by `&`
(the serialized values `true`/`false` and decimal numbers need no
percent-encoding). -/
def renderQuery (pairs : List (String × String)) : String :=
  String.intercalate "&" (pairs.map (fun kv => kv.1 ++ "=" ++ kv.2))

/-- The endpoint `taskApi.getTasks` passes to `apiClient.get`
(`api-client.ts`, lines 200-216): the query string is appended after `?`
exactly when it is nonempty (JavaScript truthiness of a string). -/
def getTasksEndpoint (params : Option TaskQueryParams) : String :=
  let pairs :=
    match params with
    | some p => taskQueryPairs p
    | none => []
  let queryString := renderQuery pairs
  if queryString = "" then "/api/v1/tasks"
  else "/api/v1/tasks?" ++ queryString

/-- C1: the claim says a timeout (the built-in timer firing) surfaces as
the "Request timeout" `ApiError`.  The platform rejects an aborted `fetch`
with a `DOMException` named `AbortError`, which is not a `TypeError`, so
the guard `error instanceof TypeError && error.name === 'AbortError'` at
line 143 never fires for it: the pipeline instead produces the generic
"Network error. Check your connection." error.  The `Request timeout`
branch is reachable only for a `TypeError` named `AbortError`, which the
platform never produces. -/
theorem timerAbort_misclassified_as_network_error :
    classifyCaughtError timerAbortError = networkApiError ∧
    classifyCaughtError timerAbortError ≠ timeoutApiError ∧
    networkApiError.message = "Network error. Check your connection." ∧
    timeoutApiError.message = "Request timeout" ∧
    (ApiClient.request Unit
        { token := some "tok", removeCount := 0, setCount := 0,
          fetchCount := 0, redirectCount := 0 }
        (.thrown timerAbortError)).2 = .error networkApiError ∧
    classifyCaughtError
        { asApiError := none, isTypeError := true, name := "AbortError" } =
      timeoutApiError := by
  refine ⟨rfl, by decide, rfl, rfl, rfl, rfl⟩

/-- C2 counterexample: a caller-supplied `Authorization` header DOES
replace the pipeline's one, because `options.headers` is spread after the
defaults (`api-client.ts`, lines 59-63): with stored token `"tok"` and
caller header `Authorization: Bearer evil`, the sent `Authorization`
header is `"Bearer evil"`, not `"Bearer tok"`. -/
theorem authorization_header_overridden_cex :
    ApiClient.sentHeaders
        { token := some "tok", removeCount := 0, setCount := 0,
          fetchCount := 0, redirectCount := 0 }
        [("Authorization", "Bearer evil")] =
      some (composeHeaders "tok" [("Authorization", "Bearer evil")]) ∧
    hget (composeHeaders "tok" [("Authorization", "Bearer evil")]) "Authorization" =
      some "Bearer evil" ∧
    "Bearer evil" ≠ "Bearer " ++ "tok" := by
  refine ⟨rfl, by decide, by decide⟩

/-- C2 amended: caller-supplied headers take precedence over all the
defaults, including `Authorization`; whenever the caller supplies no
`Authorization` header, the sent `Authorization` header equals
`Bearer <stored token>`. -/
theorem authorization_header_default (w : World) (token : String)
    (caller : Headers) (htok : w.token = some token)
    (hno : ∀ kv ∈ caller, kv.1 ≠ "Authorization") :
    ∃ hs, ApiClient.sentHeaders w caller = some hs ∧
      hget hs "Authorization" = some ("Bearer " ++ token) := by
  refine ⟨composeHeaders token caller, ?_, ?_⟩
  · simp [ApiClient.sentHeaders, getAuthToken, htok]
  · have hfind : caller.reverse.find? (fun p => p.1 == "Authorization") = none := by
      rw [List.find?_eq_none]
      intro kv hkv
      simpa using hno kv (List.mem_reverse.mp hkv)
    unfold hget composeHeaders
    rw [List.reverse_append, List.find?_append, hfind]
    simp

/-- Witness for the C2 amended theorem at a concrete input. -/
theorem authorization_header_default_witness :
    ∃ hs, ApiClient.sentHeaders
        { token := some "tok", removeCount := 0, setCount := 0,
          fetchCount := 0, redirectCount := 0 }
        [("X-Custom", "y")] = some hs ∧
      hget hs "Authorization" = some ("Bearer " ++ "tok") :=
  authorization_header_default
    { token := some "tok", removeCount := 0, setCount := 0,
      fetchCount := 0, redirectCount := 0 }
    "tok" [("X-Custom", "y")] rfl (by decide)

/-- C3: with a token stored, an HTTP 401 response makes the pipeline
remove the stored token exactly once (the remove counter grows by exactly
one and the slot is cleared) and fail with the `Unauthorized access` error
carrying status 401, code `AUTH_001`, `canRetry = false`; the redirect
counter is untouched (the pipeline performs no redirect). -/
theorem request_401_clears_token_once (T : Type) (w : World) (t : String)
    (errData : Option ErrData) (body : Option T) (htok : w.token = some t) :
    ApiClient.request T w (.resp 401 errData body) =
      ({ w with
          token := none,
          removeCount := w.removeCount + 1,
          fetchCount := w.fetchCount + 1 },
       .error unauthorizedApiError) ∧
    unauthorizedApiError.status = 401 ∧
    unauthorizedApiError.errorCode = some "AUTH_001" ∧
    unauthorizedApiError.canRetry = false ∧
    (ApiClient.request T w (.resp 401 errData body)).1.redirectCount =
      w.redirectCount := by
  have hmain : ApiClient.request T w (.resp 401 errData body) =
      ({ w with
          token := none,
          removeCount := w.removeCount + 1,
          fetchCount := w.fetchCount + 1 },
       .error unauthorizedApiError) := by
    simp [ApiClient.request, getAuthToken, htok, removeAuthToken]
  refine ⟨hmain, rfl, rfl, rfl, by rw [hmain]⟩

/-- Witness for C3 at a concrete input. -/
theorem request_401_clears_token_once_witness :
    ApiClient.request Unit
        { token := some "tok", removeCount := 0, setCount := 0,
          fetchCount := 0, redirectCount := 0 }
        (.resp 401 none none) =
      ({ token := none, removeCount := 1, setCount := 0,
         fetchCount := 1, redirectCount := 0 },
       .error unauthorizedApiError) ∧
    unauthorizedApiError.status = 401 ∧
    unauthorizedApiError.errorCode = some "AUTH_001" ∧
    unauthorizedApiError.canRetry = false ∧
    (ApiClient.request Unit
        { token := some "tok", removeCount := 0, setCount := 0,
          fetchCount := 0, redirectCount := 0 }
        (.resp 401 none none)).1.redirectCount = 0 :=
  request_401_clears_token_once Unit
    { token := some "tok", removeCount := 0, setCount := 0,
      fetchCount := 0, redirectCount := 0 }
    "tok" none none rfl

/-- C4 counterexample: a stored token `"a.b.c"` whose payload decodes to
`{sub: "1", email: "x", exp: 0}` has an expiry claim `0 < 1` (the current
time), yet `checkAuthState` returns AUTHENTICATED and leaves the token in
place: the source tests `payload.exp && payload.exp < currentTime` and the
claim value `0` is falsy, so the expiry branch is skipped. -/
theorem checkAuthState_exp_zero_cex :
    checkAuthState
        (fun _ => some { sub := some "1", email := some "x", exp := some 0 }) 1
        { token := some "a.b.c", removeCount := 0, setCount := 0,
          fetchCount := 0, redirectCount := 0 } =
      ({ token := some "a.b.c", removeCount := 0, setCount := 0,
         fetchCount := 0, redirectCount := 0 },
       { isAuthenticated := true,
         user := some { userId := some "1", email := "x" } }) ∧
    (0 : Int) < 1 := by
  refine ⟨by decide, by decide⟩

/-- C4 amended: for every stored token whose payload segment decodes and
parses successfully and contains a NONZERO expiry claim strictly less than
the current time in whole seconds, `checkAuthState` removes the token from
storage and returns the unauthenticated state.  (An expiry claim equal to
`0` is falsy in JavaScript, so the source's truthiness presence test
treats it as absent and the token is kept.) -/
theorem checkAuthState_expired_clears
    (decodePayload : String → Option JwtPayload) (now : Int) (w : World)
    (t : String) (payload : JwtPayload) (e : Int)
    (htok : w.token = some t)
    (hsegs : (jsSplitDot t).length = 3)
    (hdec : decodePayload ((jsSplitDot t).getD 1 "") = some payload)
    (hexp : payload.exp = some e) (hnz : e ≠ 0) (hlt : e < now) :
    checkAuthState decodePayload now w = (removeAuthToken w, unauthenticated) := by
  have hlen : 1 < (jsSplitDot t).length := by omega
  have hdec2 : decodePayload ((jsSplitDot t)[1]) = some payload := by
    rwa [List.getD_eq_getElem _ _ hlen] at hdec
  simp [checkAuthState, getAuthToken, htok, hsegs, hdec2, hexp, hnz, hlt]

/-- Witness for the C4 amended theorem at a concrete input. -/
theorem checkAuthState_expired_clears_witness :
    checkAuthState
        (fun _ => some { sub := some "1", email := none, exp := some 5 }) 10
        { token := some "h.p.s", removeCount := 0, setCount := 0,
          fetchCount := 0, redirectCount := 0 } =
      (removeAuthToken
        { token := some "h.p.s", removeCount := 0, setCount := 0,
          fetchCount := 0, redirectCount := 0 },
       unauthenticated) :=
  checkAuthState_expired_clears
    (fun _ => some { sub := some "1", email := none, exp := some 5 }) 10
    { token := some "h.p.s", removeCount := 0, setCount := 0,
      fetchCount := 0, redirectCount := 0 }
    "h.p.s" { sub := some "1", email := none, exp := some 5 } 5
    rfl (by decide) rfl rfl (by decide) (by decide)

/-- C5: a stored token that does not split on `.` into exactly 3 segments
makes `checkAuthState` return `{isAuthenticated: false, user: null}` with
the whole browser state unchanged: the token is not cleared and no other
effect happens. -/
theorem checkAuthState_malformed_preserves
    (decodePayload : String → Option JwtPayload) (now : Int) (w : World)
    (t : String) (htok : w.token = some t)
    (hsegs : (jsSplitDot t).length ≠ 3) :
    checkAuthState decodePayload now w = (w, unauthenticated) := by
  simp [checkAuthState, getAuthToken, htok, hsegs]

/-- Witness for C5 at a concrete input: the token `"ab"` has 1 segment. -/
theorem checkAuthState_malformed_preserves_witness :
    checkAuthState (fun _ => none) 0
        { token := some "ab", removeCount := 0, setCount := 0,
          fetchCount := 0, redirectCount := 0 } =
      ({ token := some "ab", removeCount := 0, setCount := 0,
         fetchCount := 0, redirectCount := 0 },
       unauthenticated) :=
  checkAuthState_malformed_preserves (fun _ => none) 0
    { token := some "ab", removeCount := 0, setCount := 0,
      fetchCount := 0, redirectCount := 0 }
    "ab" rfl (by decide)

/-- C6: `refreshToken` never throws (it is a total function into
`World × Option String`), and: with no stored token it returns `none`
with the state unchanged — in particular no network call is issued; with a
stored token, if the fetch rejected, or the response is non-ok, or the
success body failed to parse, the token is removed and `none` returned;
on a success body carrying an access token, that token is persisted and
returned. -/
theorem refreshToken_contract (w : World) (net : RefreshOutcome) :
    (w.token = none → refreshToken w net = (w, none)) ∧
    (∀ t, w.token = some t →
      (net = .thrown ∨ (∃ b, net = .resp false b) ∨ net = .resp true none) →
        (refreshToken w net).1.token = none ∧
        (refreshToken w net).1.removeCount = w.removeCount + 1 ∧
        (refreshToken w net).2 = none) ∧
    (∀ t tok, w.token = some t →
      net = .resp true (some { access_token := some tok }) →
        refreshToken w net =
          (setAuthToken tok { w with fetchCount := w.fetchCount + 1 },
           some tok)) := by
  refine ⟨?_, ?_, ?_⟩
  · intro h
    simp [refreshToken, getAuthToken, h]
  · rintro t htok (rfl | ⟨b, rfl⟩ | rfl) <;>
      simp [refreshToken, refreshTokenTry, getAuthToken, htok, removeAuthToken]
  · rintro t tok htok rfl
    simp [refreshToken, refreshTokenTry, getAuthToken, htok, jsStr]

/-- Witness for C6 at concrete inputs, one per branch of the contract. -/
theorem refreshToken_contract_witness :
    refreshToken
        { token := none, removeCount := 0, setCount := 0,
          fetchCount := 0, redirectCount := 0 } .thrown =
      ({ token := none, removeCount := 0, setCount := 0,
         fetchCount := 0, redirectCount := 0 }, none) ∧
    (refreshToken
        { token := some "tok", removeCount := 0, setCount := 0,
          fetchCount := 0, redirectCount := 0 }
        (.resp false none)).1.token = none ∧
    (refreshToken
        { token := some "tok", removeCount := 0, setCount := 0,
          fetchCount := 0, redirectCount := 0 }
        (.resp false none)).2 = none ∧
    refreshToken
        { token := some "tok", removeCount := 0, setCount := 0,
          fetchCount := 0, redirectCount := 0 }
        (.resp true (some { access_token := some "new" })) =
      (setAuthToken "new"
        { token := some "tok", removeCount := 0, setCount := 0,
          fetchCount := 1, redirectCount := 0 },
       some "new") := by
  refine ⟨(refreshToken_contract _ _).1 rfl, ?_, ?_, ?_⟩
  · exact ((refreshToken_contract _ (.resp false none)).2.1 "tok" rfl
      (Or.inr (Or.inl ⟨none, rfl⟩))).1
  · exact ((refreshToken_contract _ (.resp false none)).2.1 "tok" rfl
      (Or.inr (Or.inl ⟨none, rfl⟩))).2.2
  · exact (refreshToken_contract _ _).2.2 "tok" "new" rfl rfl

/-- C7: with a token stored, a non-2xx, non-401 response with status `s`
makes the pipeline fail with the table-driven error whose `canRetry` is
exactly `s ≥ 500 or s = 0`; at `s = 500` the message is
"Something went wrong. Please try again." with `canRetry = true`, and at
`s = 404` the message is "The requested item was not found" with
`canRetry = false`. -/
theorem request_http_error_classification (T : Type) (w : World) (t : String)
    (status : Nat) (errData : Option ErrData) (body : Option T)
    (htok : w.token = some t) (h401 : status ≠ 401)
    (hnotok : ¬ (200 ≤ status ∧ status < 300)) :
    (ApiClient.request T w (.resp status errData body)).2 =
      .error (httpApiError status (errData.getD emptyErrData)) ∧
    (httpApiError status (errData.getD emptyErrData)).canRetry =
      (decide (500 ≤ status) || decide (status = 0)) ∧
    (status = 500 →
      (httpApiError status (errData.getD emptyErrData)).message =
          "Something went wrong. Please try again." ∧
      (httpApiError status (errData.getD emptyErrData)).canRetry = true) ∧
    (status = 404 →
      (httpApiError status (errData.getD emptyErrData)).message =
          "The requested item was not found" ∧
      (httpApiError status (errData.getD emptyErrData)).canRetry = false) := by
  refine ⟨?_, rfl, ?_, ?_⟩
  · simp [ApiClient.request, getAuthToken, htok, h401, hnotok]
  · rintro rfl
    exact ⟨rfl, rfl⟩
  · rintro rfl
    exact ⟨rfl, rfl⟩

/-- Witness for C7 at a concrete 404 response. -/
theorem request_http_error_classification_witness :
    (ApiClient.request Unit
        { token := some "tok", removeCount := 0, setCount := 0,
          fetchCount := 0, redirectCount := 0 }
        (.resp 404 none none)).2 =
      .error (httpApiError 404 ((none : Option ErrData).getD emptyErrData)) ∧
    (httpApiError 404 ((none : Option ErrData).getD emptyErrData)).canRetry =
      (decide (500 ≤ 404) || decide (404 = 0)) ∧
    ((404 : Nat) = 500 →
      (httpApiError 404 ((none : Option ErrData).getD emptyErrData)).message =
          "Something went wrong. Please try again." ∧
      (httpApiError 404 ((none : Option ErrData).getD emptyErrData)).canRetry = true) ∧
    ((404 : Nat) = 404 →
      (httpApiError 404 ((none : Option ErrData).getD emptyErrData)).message =
          "The requested item was not found" ∧
      (httpApiError 404 ((none : Option ErrData).getD emptyErrData)).canRetry = false) :=
  request_http_error_classification Unit
    { token := some "tok", removeCount := 0, setCount := 0,
      fetchCount := 0, redirectCount := 0 }
    "tok" 404 none none rfl (by decide) (by decide)

/-- C8: `getTasks` serializes only the non-undefined query parameters, in
the order is_completed, limit, offset: with `{limit: 10, offset: 0}` the
endpoint is `/api/v1/tasks?limit=10&offset=0` (is_completed omitted), and
with no parameters it is `/api/v1/tasks` with no query string. -/
theorem getTasks_query_serialization :
    getTasksEndpoint
        (some { is_completed := none, limit := some 10, offset := some 0 }) =
      "/api/v1/tasks?limit=10&offset=0" ∧
    getTasksEndpoint none = "/api/v1/tasks" ∧
    (∀ b l o, taskQueryPairs
        { is_completed := some b, limit := some l, offset := some o } =
      [("is_completed", jsBoolString b), ("limit", jsIntString l),
       ("offset", jsIntString o)]) ∧
    (∀ l o, taskQueryPairs
        { is_completed := none, limit := some l, offset := some o } =
      [("limit", jsIntString l), ("offset", jsIntString o)]) ∧
    (∀ b o, taskQueryPairs
        { is_completed := some b, limit := none, offset := some o } =
      [("is_completed", jsBoolString b), ("offset", jsIntString o)]) := by
  refine ⟨by decide, rfl, fun b l o => rfl, fun l o => rfl, fun b o => rfl⟩

/-- C9: for every 2xx sign-in response whose body carries
`{access_token: t, user: u}`, `signIn` persists `t` in the token store and
returns `{user: u, token: t}` with the token unchanged. -/
theorem signIn_token_roundtrip (U : Type) (w : World) (u : U) (t : String)
    (detail : Option String) :
    signIn U w (.resp true detail (some { access_token := some t, user := u })) =
      (setAuthToken t { w with fetchCount := w.fetchCount + 1 },
       .ok { user := u, token := some t }) ∧
    (signIn U w
        (.resp true detail (some { access_token := some t, user := u }))).1.token =
      some t := by
  exact ⟨rfl, rfl⟩

/-- C10: the `timeout` field of the public `RequestOptions` is dropped by
every verb method — each builds the same request argument whether
`options.timeout` is set or omitted — and since no verb ever attaches a
signal, the timer armed inside the pipeline is always the configured
10000 ms one. -/
theorem requestOptions_timeout_ignored (endpoint data : String)
    (h : Option Headers) (n : Nat) :
    ApiClient.get endpoint (some { headers := h, timeout := some n }) =
      ApiClient.get endpoint (some { headers := h, timeout := none }) ∧
    ApiClient.post endpoint data (some { headers := h, timeout := some n }) =
      ApiClient.post endpoint data (some { headers := h, timeout := none }) ∧
    ApiClient.put endpoint data (some { headers := h, timeout := some n }) =
      ApiClient.put endpoint data (some { headers := h, timeout := none }) ∧
    ApiClient.patch endpoint data (some { headers := h, timeout := some n }) =
      ApiClient.patch endpoint data (some { headers := h, timeout := none }) ∧
    ApiClient.del endpoint (some { headers := h, timeout := some n }) =
      ApiClient.del endpoint (some { headers := h, timeout := none }) ∧
    ApiClient.armedTimeout ApiClient.defaultConfig
        (ApiClient.get endpoint
          (some { headers := h, timeout := some n })).2.hasSignal =
      some 10000 := by
  exact ⟨rfl, rfl, rfl, rfl, rfl, rfl⟩
